import Mathlib

/-!
Shallow embedding of the DeployHub build-and-deploy pipeline
(apps/api/src/services/deployer/index.ts — the container-deployment module and
the build-orchestration module concatenated in that file — together with the
deployment routes in apps/api/src/routes/deployments.ts and the SQLite schema).

Each definition is translated from the TypeScript source; comments cite the
source lines.  Effects (docker engine, git, filesystem, sqlite) are embedded as
explicit outcome parameters and event traces.
-/

namespace DeployHub

/-! ## Port allocator (deployer module, lines 5–20)

```
let nextPort = 4000;
const usedPorts = new Set<number>();
function allocatePort(): number {
    while (usedPorts.has(nextPort)) {
        nextPort++;
        if (nextPort > 5000) nextPort = 4000;
    }
    usedPorts.add(nextPort);
    return nextPort++;
}
export function releasePort(port) { usedPorts.delete(port); }
```

The `while` loop need not terminate, so the embedded loop takes explicit fuel:
`none` means the fuel ran out, i.e. the JS loop is still spinning.  A fuel of
1100 is more than any terminating run of the loop can use: after one iteration
the scan value is inside `[4000, 5000]`, so a terminating scan takes at most
1003 iterations. -/

structure AllocState where
  nextPort : Nat
  usedPorts : Finset Nat
deriving DecidableEq

/-- The `while (usedPorts.has(nextPort))` loop: returns the first scan value
not in `used`, or `none` if the fuel is exhausted (the JS loop would still be
running). -/
def allocateLoop : Nat → Nat → Finset Nat → Option Nat
  | 0, _, _ => none
  | fuel + 1, next, used =>
    if next ∈ used then
      allocateLoop fuel (if next + 1 > 5000 then 4000 else next + 1) used
    else
      some next

/-- `allocatePort` (lines 9–16): scan from `nextPort`, add the found port to
`usedPorts`, return it, and post-increment `nextPort` (no wrap check on this
final increment). -/
def allocatePort (fuel : Nat) (s : AllocState) : Option (Nat × AllocState) :=
  match allocateLoop fuel s.nextPort s.usedPorts with
  | none => none
  | some p => some (p, ⟨p + 1, insert p s.usedPorts⟩)

/-- `releasePort` (lines 18–20): `usedPorts.delete(port)`. -/
def releasePort (p : Nat) (s : AllocState) : AllocState :=
  ⟨s.nextPort, s.usedPorts.erase p⟩

/-- A client-visible call against the allocator. -/
inductive AllocOp
  | alloc
  | release (p : Nat)

/-- Run a sequence of allocator calls from a state, collecting the ports that
`allocate()` returns, in order.  If an allocation exhausts its fuel the JS
loop spins forever, so no later call ever runs. -/
def runOps : List AllocOp → AllocState → AllocState × List Nat
  | [], s => (s, [])
  | AllocOp.alloc :: ops, s =>
    match allocatePort 1100 s with
    | some (p, s') =>
      let r := runOps ops s'
      (r.1, p :: r.2)
    | none => (s, [])
  | AllocOp.release p :: ops, s => runOps ops (releasePort p s)

/-- Initial module state (line 6): `nextPort = 4000`, `usedPorts` empty. -/
def initialAllocState : AllocState := ⟨4000, ∅⟩

/-- The allocator state reached after `k` consecutive `allocate()` calls from
the initial state: the scan value sits at `4000 + k` and every port below it
is held. -/
def freshRunState (k : Nat) : AllocState :=
  ⟨4000 + k, Finset.Icc 4000 (3999 + k)⟩

/-! ## Buildpack registry (builder module, lines 216–363)

Each buildpack is a name, a detector over the repository's top-level file
list, and a Dockerfile template.  The template bodies (pure string templates
over the env-var map) are not consulted by any claim and are elided; `name`
and `detect` are translated verbatim. -/

structure Buildpack where
  name : String
  detect : List String → Bool

/-- The `buildpacks` array, in declaration order (lines 223–353). -/
def buildpacks : List Buildpack := [
  { name := "nodejs",
    detect := fun files => files.contains "package.json" },
  { name := "python",
    detect := fun files => files.contains "requirements.txt" || files.contains "pyproject.toml" },
  { name := "go",
    detect := fun files => files.contains "go.mod" },
  { name := "ruby",
    detect := fun files => files.contains "Gemfile" },
  { name := "rust",
    detect := fun files => files.contains "Cargo.toml" },
  { name := "java",
    detect := fun files => files.contains "pom.xml" || files.contains "build.gradle" ||
      files.contains "build.gradle.kts" },
  { name := "php",
    detect := fun files => files.contains "composer.json" || files.contains "index.php" },
  { name := "elixir",
    detect := fun files => files.contains "mix.exs" },
  { name := "static",
    detect := fun files => files.contains "index.html" } ]

/-- `detectBuildpack` (lines 356–363): first detector that matches wins;
`null` when none does. -/
def detectBuildpack (files : List String) : Option Buildpack :=
  buildpacks.find? (fun bp => bp.detect files)

/-! ## String helpers

Character-list implementations of the string operations the source uses
(`startsWith`, `slice`, `toLowerCase`, substring search, env-entry lookup).
The library versions compute byte-wise; these compute on `String.data`, with
the same meaning, and reduce inside the kernel. -/

/-- `leadsWith pat l` is true when `pat` is an initial segment of `l`. -/
def leadsWith : List Char → List Char → Bool
  | [], _ => true
  | _ :: _, [] => false
  | a :: as, b :: bs => a == b && leadsWith as bs

/-- `hasSegment pat l` is true when `pat` occurs contiguously inside `l`. -/
def hasSegment (pat : List Char) : List Char → Bool
  | [] => leadsWith pat []
  | c :: rest => leadsWith pat (c :: rest) || hasSegment pat rest

/-- Substring test on strings. -/
def strContains (s pat : String) : Bool := hasSegment pat.data s.data

/-- `s.startsWith pre`. -/
def strStarts (pre s : String) : Bool := leadsWith pre.data s.data

/-- `s.slice(0, n)`. -/
def strTake (s : String) (n : Nat) : String := String.mk (s.data.take n)

/-- `s.toLowerCase()`. -/
def toLowerStr (s : String) : String := String.mk (s.data.map Char.toLower)

/-- Whether an `Env` array entry binds the given key, i.e. starts with
`key=`. -/
def entryHasKey (key entry : String) : Bool :=
  leadsWith (key.data ++ ['=']) entry.data

/-- The engine resolves duplicate keys in the `Env` array by letting the last
entry win: `lastEnvEntry key env` is the entry that ends up in effect. -/
def lastEnvEntry (key : String) (env : List String) : Option String :=
  env.reverse.find? (entryHasKey key)

/-! ## Container deployment (deployer module, lines 27–152) -/

structure ContainerInfo where
  containerId : String
  port : Nat
deriving DecidableEq

/-- `projectName.toLowerCase().replace(/[^a-z0-9]/g, '-')` (lines 33 and 471). -/
def sanitizeName (s : String) : String :=
  String.mk ((toLowerStr s).data.map fun c =>
    if ('a' ≤ c ∧ c ≤ 'z') ∨ ('0' ≤ c ∧ c ≤ '9') then c else '-')

/-- The `Env` array handed to the engine (lines 51–53): one `key=value` entry
per user-supplied variable, in map order, then `PORT=<allocated port>` pushed
after them. -/
def mkEnvArray (envVars : List (String × String)) (port : Nat) : List String :=
  envVars.map (fun kv => kv.1 ++ "=" ++ kv.2) ++ ["PORT=" ++ toString port]

/-- `waitForHealth` (lines 102–128), as the list of console messages it
produces.  Each element of `probes` is one one-second poll: `true` when the
container is in a running engine-state and the HTTP probe got a response.  A
successful probe returns early with no message; an exhausted probe window
falls out of the loop and merely logs — the function never throws. -/
def waitForHealth (containerId : String) (probes : List Bool) : List String :=
  match probes with
  | [] => ["Container " ++ containerId ++ " health check timed out, but continuing..."]
  | p :: rest => if p then [] else waitForHealth containerId rest

/-- Engine effects outside the deployer's control, for one `deployContainer`
call. -/
structure DockerWorld where
  /-- containers whose name matches the `deployhub-<project>` prefix
  (line 39). -/
  staleContainerIds : List String
  /-- id of the container the engine creates for this call. -/
  newContainerId : String
  /-- first exposed port in the image metadata, if any (lines 56–67). -/
  exposedPort : Option Nat
  /-- whether `createContainer` + `start` succeed (lines 70–91). -/
  createStartOk : Bool
  /-- per-second health-poll outcomes (lines 105–124). -/
  probes : List Bool
  /-- `Date.now()` at line 33, used only in the container name. -/
  now : Nat
deriving DecidableEq

/-- Engine operations issued by `deployContainer`, in order. -/
inductive DockerAction
  | stopAndRemove (id : String)
  | create (name : String) (env : List String) (hostPort : Nat) (exposedPort : Nat)
  | start (id : String)
deriving DecidableEq

/-- `deployContainer` (lines 27–100).  Returns the container info, the
allocator state after the call, the engine actions performed, and the
health-check console messages.  `none` covers the two ways the source call
does not return: `createContainer`/`start` throwing, and `allocatePort`
spinning forever (fuel 1100 exhausted, possible only on an exhausted range).

The stale-container cleanup (lines 35–49) stops and removes every matching
container with all errors swallowed; it makes NO call to `releasePort`, so it
has no effect on the allocator state. -/
def deployContainer (projectName : String) (envVars : List (String × String))
    (w : DockerWorld) (alloc : AllocState) :
    Option (ContainerInfo × AllocState × List DockerAction × List String) :=
  match allocatePort 1100 alloc with
  | none => none
  | some (port, alloc') =>
    let cleanup := w.staleContainerIds.map DockerAction.stopAndRemove
    let envArray := mkEnvArray envVars port
    let exposed := w.exposedPort.getD port
    let containerName := "deployhub-" ++ sanitizeName projectName ++ "-" ++ toString w.now
    if w.createStartOk then
      some (⟨w.newContainerId, port⟩, alloc',
            cleanup ++ [DockerAction.create containerName envArray port exposed,
                        DockerAction.start w.newContainerId],
            waitForHealth w.newContainerId w.probes)
    else none

/-- `stopContainer` (lines 130–152): for every host-port binding of the
container it calls `releasePort`, then stops and removes the container
(errors logged, not rethrown).  This exported function is the only caller of
`releasePort` in the repository. -/
def stopContainer (boundHostPorts : List Nat) (alloc : AllocState) : AllocState :=
  boundHostPorts.foldl (fun a p => releasePort p a) alloc

/-! ## Deployment records (db schema in the api db module, and the builder) -/

/-- The `status` column values used by the code.  The schema declares
`DEFAULT 'pending'`. -/
inductive Status
  | pending
  | building
  | deploying
  | running
  | failed
  | stopped
deriving DecidableEq

/-- One row of the `deployments` table.  `logs` holds the appended messages in
order (the column is their concatenation, one per line); `finished_at_set`
records whether the nullable finish timestamp has been written. -/
structure DeploymentRow where
  id : String
  project_id : String
  status : Status
  docker_image : Option String
  container_id : Option String
  port : Option Nat
  logs : List String
  commit_sha : Option String
  finished_at_set : Bool
deriving DecidableEq

/-- `createDeployment` (builder module, lines 366–374): the INSERT names the
`status` column explicitly and writes `'building'`; every other nullable
column keeps its schema default. -/
def createDeployment (id projectId : String) (commitSha : Option String) : DeploymentRow :=
  { id := id
    project_id := projectId
    status := Status.building
    docker_image := none
    container_id := none
    port := none
    logs := []
    commit_sha := commitSha
    finished_at_set := false }

/-- Writes the build pipeline makes against the deployment row and the event
bus, in program order.  `setRunning` is the single UPDATE at lines 515–520
(status, container_id, port, finished_at together); `setFailed` is the single
UPDATE of the catch blocks (status + finished_at). -/
inductive Event
  | log (msg : String)
  | setStatus (s : Status)
  | setImage (img : String)
  | setRunning (cid : String) (port : Nat)
  | setFailed
  | setProjectBuildpack (name : String)
  | emitStatus (s : Status)
  | buildImage (tag : String)
  | runStep
  | removeWorkDir
deriving DecidableEq

/-- Effect of one event on the persisted row. -/
def applyEvent (d : DeploymentRow) : Event → DeploymentRow
  | Event.log m => { d with logs := d.logs ++ [m] }
  | Event.setStatus s => { d with status := s }
  | Event.setImage i => { d with docker_image := some i }
  | Event.setRunning cid p =>
      { d with status := Status.running, container_id := some cid,
               port := some p, finished_at_set := true }
  | Event.setFailed => { d with status := Status.failed, finished_at_set := true }
  | _ => d

def applyEvents (d : DeploymentRow) (evs : List Event) : DeploymentRow :=
  evs.foldl applyEvent d

/-- The status values written to the row, in order (used to state which
lifecycle statuses a deployment passes through). -/
def statusWrites (evs : List Event) : List Status :=
  evs.filterMap fun e =>
    match e with
    | Event.setStatus s => some s
    | Event.setRunning _ _ => some Status.running
    | Event.setFailed => some Status.failed
    | _ => none

/-- `true` exactly on the image-build and container-run steps. -/
def isBuildOrRunStep : Event → Bool
  | Event.buildImage _ => true
  | Event.runStep => true
  | _ => false

/-! ## Build pipeline (builder module, lines 400–548) -/

/-- A row of the `projects` table, with `env_vars` already JSON-parsed to the
key-value list the builder uses at lines 459 and 509. -/
structure Project where
  id : String
  name : String
  repo_url : String
  branch : String
  env_vars : List (String × String)
  buildpack : Option String
deriving DecidableEq

/-- Filesystem/git/engine outcomes for one pipeline run.  `cloneErr` and
`buildErr` carry the external error message when the step throws (`none` =
success).  `rmOk` is the outcome of removing the scratch directory (the same
directory both on the success path, line 529, and in the catch block,
line 543). -/
structure BuildWorld where
  mkdirOk : Bool
  cloneErr : Option String
  files : List String
  buildErr : Option String
  dockerW : DockerWorld
  rmOk : Bool
deriving DecidableEq

/-- The `try` block of `buildAsync` (lines 419–530), as the events it emits,
the allocator state it leaves, and `some message` when it throws.  The
per-line docker build-stream forwarding (lines 481–500) is elided: no claim
consults those lines.  The placeholder messages "mkdir failed" and "container
start failed" stand for the external errors of `fs.mkdir` and of
`createContainer`/`start`, whose text the source takes from the thrown
error. -/
def buildAsyncTry (proj : Project) (deploymentId : String) (w : BuildWorld)
    (alloc : AllocState) : List Event × AllocState × Option String :=
  let ev := [Event.log ("🚀 Starting build for " ++ proj.name),
             Event.log ("📦 Repository: " ++ proj.repo_url),
             Event.log ("🌿 Branch: " ++ proj.branch)]
  if !w.mkdirOk then (ev, alloc, some "mkdir failed") else
  let ev := ev ++ [Event.log "\n📥 Cloning repository..."]
  match w.cloneErr with
  | some msg => (ev, alloc, some msg)
  | none =>
  let ev := ev ++ [Event.log "✅ Repository cloned",
                   Event.log ("📂 Files: " ++
                     String.intercalate ", " (w.files.filter (fun f => !(strStarts "." f))))]
  let detected : Option (List Event × String) :=
    if w.files.contains "Dockerfile" then
      some (ev ++ [Event.log "📄 Using existing Dockerfile"], "custom")
    else
      match detectBuildpack w.files with
      | none => none
      | some bp =>
        some (ev ++ [Event.log ("🔍 Detected buildpack: " ++ bp.name),
                     Event.log "📝 Generated Dockerfile"], bp.name)
  match detected with
  | none => (ev, alloc, some "No suitable buildpack found and no Dockerfile present")
  | some (ev, buildpackName) =>
  let ev := ev ++ [Event.setProjectBuildpack buildpackName]
  let imageName := "deployhub/" ++ sanitizeName proj.name ++ ":" ++ strTake deploymentId 8
  let ev := ev ++ [Event.log ("\n🐳 Building Docker image: " ++ imageName),
                   Event.setStatus Status.building,
                   Event.buildImage imageName]
  match w.buildErr with
  | some msg => (ev, alloc, some msg)
  | none =>
  let ev := ev ++ [Event.log "✅ Image built successfully",
                   Event.setImage imageName,
                   Event.log "\n🚢 Deploying container...",
                   Event.setStatus Status.deploying,
                   Event.runStep]
  match deployContainer proj.name proj.env_vars w.dockerW alloc with
  | none => (ev, alloc, some "container start failed")
  | some (info, alloc', _actions, _healthLogs) =>
  let ev := ev ++ [Event.log ("✅ Container deployed: " ++ strTake info.containerId 12),
                   Event.log ("🌐 Running on port: " ++ toString info.port),
                   Event.setRunning info.containerId info.port,
                   Event.log "\n✨ Deployment complete!",
                   Event.log ("🔗 Access at: http://localhost:" ++ toString info.port),
                   Event.emitStatus Status.running]
  if w.rmOk then (ev ++ [Event.removeWorkDir], alloc', none)
  else (ev, alloc', some "rm failed")

/-- `buildAsync` (lines 418–548): the catch block appends the failure log
line, applies the single failed-status UPDATE, emits the status event, makes
a best-effort second removal attempt (its own failure swallowed), and
rethrows — the message is returned so the caller's `.catch` sees it. -/
def buildAsync (proj : Project) (deploymentId : String) (w : BuildWorld)
    (alloc : AllocState) : List Event × AllocState × Option String :=
  match buildAsyncTry proj deploymentId w alloc with
  | (ev, alloc', none) => (ev, alloc', none)
  | (ev, alloc', some msg) =>
    (ev ++ [Event.log ("\n❌ Build failed: " ++ msg),
            Event.setFailed,
            Event.emitStatus Status.failed] ++
       (if w.rmOk then [Event.removeWorkDir] else []),
     alloc', some msg)

/-- `triggerBuild` (lines 401–416): create the record, run the pipeline, and
in the `.catch` handler apply a second failed-status UPDATE followed by a
second failure log line. -/
def triggerBuild (proj : Project) (deploymentId : String) (commitSha : Option String)
    (w : BuildWorld) (alloc : AllocState) : DeploymentRow × List Event × AllocState :=
  let row := createDeployment deploymentId proj.id commitSha
  match buildAsync proj deploymentId w alloc with
  | (ev, alloc', none) => (row, ev, alloc')
  | (ev, alloc', some msg) =>
    (row, ev ++ [Event.setFailed, Event.log ("❌ Build failed: " ++ msg)], alloc')

/-- The statuses a triggered deployment's row holds over time: the value the
record is created with, then every status written by the pipeline. -/
def statusHistory (out : DeploymentRow × List Event × AllocState) : List Status :=
  out.1.status :: statusWrites out.2.1

/-! ## Deployment routes (apps/api/src/routes/deployments.ts) -/

/- (routes defs below; string helpers above) -/

/-- The stop handler (lines 73–93): its only write is
`UPDATE deployments SET status = 'stopped' WHERE id = ?`.  The container is
not stopped (marked TODO in the source) and no other column is touched. -/
def stopDeploymentRoute (d : DeploymentRow) : DeploymentRow :=
  { d with status := Status.stopped }

/-- The spec invariant of claim C1: container reference and port are non-null
iff the status is `running`. -/
def containerFieldsMatchRunning (d : DeploymentRow) : Prop :=
  (d.container_id ≠ none ∧ d.port ≠ none) ↔ d.status = Status.running

/-! ## Helper lemmas and claim theorems -/

lemma allocateLoop_full (fuel : Nat) :
    ∀ next, next ∈ Finset.Icc 4000 5000 →
      allocateLoop fuel next (Finset.Icc 4000 5000) = none := by
  induction fuel with
  | zero => intro next _; rfl
  | succ n ih =>
    intro next hmem
    unfold allocateLoop
    rw [if_pos hmem]
    apply ih
    rw [Finset.mem_Icc] at hmem ⊢
    split <;> omega

lemma freshRunState_next_not_used (k : Nat) :
    4000 + k ∉ (freshRunState k).usedPorts := by
  simp only [freshRunState, Finset.mem_Icc]
  omega

lemma freshRunState_insert (k : Nat) :
    insert (4000 + k) (freshRunState k).usedPorts = (freshRunState (k + 1)).usedPorts := by
  simp only [freshRunState]
  ext x
  simp only [Finset.mem_insert, Finset.mem_Icc]
  omega

lemma allocatePort_freshRunState (k : Nat) :
    allocatePort 1100 (freshRunState k) = some (4000 + k, freshRunState (k + 1)) := by
  have hnext : (freshRunState k).nextPort = 4000 + k := rfl
  have hloop : allocateLoop 1100 (4000 + k) (freshRunState k).usedPorts = some (4000 + k) := by
    show allocateLoop (1099 + 1) (4000 + k) (freshRunState k).usedPorts = some (4000 + k)
    unfold allocateLoop
    rw [if_neg (freshRunState_next_not_used k)]
  unfold allocatePort
  rw [hnext, hloop]
  show some (4000 + k, (⟨4000 + k + 1, insert (4000 + k) (freshRunState k).usedPorts⟩ : AllocState)) = _
  rw [freshRunState_insert k]
  rfl

lemma runOps_replicate_alloc (n : Nat) :
    ∀ k, runOps (List.replicate n AllocOp.alloc) (freshRunState k) =
      (freshRunState (k + n), (List.range n).map (fun i => 4000 + k + i)) := by
  induction n with
  | zero => intro k; simp [runOps]
  | succ n ih =>
    intro k
    rw [List.replicate_succ]
    unfold runOps
    rw [allocatePort_freshRunState k]
    show ((runOps (List.replicate n AllocOp.alloc) (freshRunState (k + 1))).1,
          (4000 + k) :: (runOps (List.replicate n AllocOp.alloc) (freshRunState (k + 1))).2) =
         (freshRunState (k + (n + 1)), (List.range (n + 1)).map (fun i => 4000 + k + i))
    rw [ih (k + 1)]
    show (freshRunState (k + 1 + n),
          (4000 + k) :: (List.range n).map (fun i => 4000 + (k + 1) + i)) = _
    rw [show k + 1 + n = k + (n + 1) from by omega,
        List.range_succ_eq_map, List.map_cons, List.map_map]
    have hlist : (List.range n).map (fun i => 4000 + (k + 1) + i) =
        (List.range n).map ((fun i => 4000 + k + i) ∘ Nat.succ) := by
      apply List.map_congr_left
      intro i _
      simp only [Function.comp, Nat.succ_eq_add_one]
      omega
    rw [hlist]
    norm_num

lemma initialAllocState_eq : initialAllocState = freshRunState 0 := by
  have h : (∅ : Finset Nat) = Finset.Icc 4000 3999 := (Finset.Icc_eq_empty (by omega)).symm
  simp only [initialAllocState, freshRunState]
  rw [h]

/-- C3: the claim says that when every port in `[4000, 5000]` is held,
`allocate()` terminates by failing with an `ExhaustedRange` error.  The code
has no such error: with the scan value inside the range, the `while` loop
skips from one held port to the next, wrapping from 5000 back to 4000, and
never exits — `allocatePort` returns `none` for EVERY fuel bound, i.e. the
loop spins forever instead of failing. -/
theorem allocatePort_exhausted_spins_forever (fuel : Nat) (s : AllocState)
    (hused : s.usedPorts = Finset.Icc 4000 5000)
    (hnext : s.nextPort ∈ Finset.Icc 4000 5000) :
    allocatePort fuel s = none := by
  unfold allocatePort
  rw [hused, allocateLoop_full fuel s.nextPort hnext]

/-- Witness for `allocatePort_exhausted_spins_forever` at a concrete exhausted
state and a concrete fuel bound. -/
theorem allocatePort_exhausted_spins_forever_witness :
    allocatePort 2000 ⟨4321, Finset.Icc 4000 5000⟩ = none :=
  allocatePort_exhausted_spins_forever 2000 ⟨4321, Finset.Icc 4000 5000⟩ rfl
    (by simp [Finset.mem_Icc])

/-- C4: the claim says every port returned by `allocate()` lies in
`[4000, 5000]`, the scan wrapping at the range boundary.  False: the final
`return nextPort++` has no wrap check, so the call made immediately after
port 5000 was issued (the 1002nd consecutive allocation from the initial
state) returns 5001, which is outside the range. -/
theorem allocate_returns_port_outside_range :
    5001 ∈ (runOps (List.replicate 1002 AllocOp.alloc) initialAllocState).2 ∧
    5001 ∉ Finset.Icc 4000 5000 := by
  rw [initialAllocState_eq, runOps_replicate_alloc 1002 0]
  constructor
  · simp only [List.mem_map, List.mem_range]
    exact ⟨1001, by omega, by omega⟩
  · simp [Finset.mem_Icc]

lemma leadsWith_self_append : ∀ l t : List Char, leadsWith l (l ++ t) = true := by
  intro l
  induction l with
  | nil => intro t; rfl
  | cons a as ih =>
    intro t
    simp only [List.cons_append, leadsWith, beq_self_eq_true, Bool.true_and]
    exact ih t

lemma entryHasKey_port (t : String) : entryHasKey "PORT" ("PORT=" ++ t) = true := by
  have hdata : ("PORT=" ++ t).data = "PORT=".data ++ t.data := rfl
  have hkey : "PORT".data ++ ['='] = "PORT=".data := by decide
  unfold entryHasKey
  rw [hdata, hkey]
  exact leadsWith_self_append _ _

lemma find?_ite (p : α → Bool) (a : α) (l : List α) :
    List.find? p (a :: l) = if p a then some a else List.find? p l := by
  by_cases h : p a = true
  · rw [List.find?_cons_of_pos _ h, if_pos h]
  · rw [List.find?_cons_of_neg _ (by simpa using h), if_neg (by simpa using h)]

/-- C1: the claim says container reference and port are non-null iff the
status is `running`, and that the stop operation clears both in the update
that sets `stopped`.  The stop route's only write is
`SET status = 'stopped'`: on a running row with both fields set it leaves
them set, so the stopped row violates the claimed invariant. -/
theorem stopRoute_leaves_container_fields_set :
    containerFieldsMatchRunning
      ⟨"d1", "p1", Status.running, some "deployhub/app:abc", some "c123", some 4000, [], none, true⟩ ∧
    stopDeploymentRoute
      ⟨"d1", "p1", Status.running, some "deployhub/app:abc", some "c123", some 4000, [], none, true⟩ =
      ⟨"d1", "p1", Status.stopped, some "deployhub/app:abc", some "c123", some 4000, [], none, true⟩ ∧
    ¬ containerFieldsMatchRunning
      ⟨"d1", "p1", Status.stopped, some "deployhub/app:abc", some "c123", some 4000, [], none, true⟩ := by
  refine ⟨by simp [containerFieldsMatchRunning], rfl, by simp [containerFieldsMatchRunning]⟩

/-- C2 counterexample: the claim says the deployment record is created with
initial lifecycle status `pending`; the INSERT in `createDeployment` writes
`'building'`. -/
theorem createDeployment_not_pending :
    (createDeployment "dep1" "proj1" none).status = Status.building ∧
    (createDeployment "dep1" "proj1" none).status ≠ Status.pending := by
  exact ⟨rfl, by simp [createDeployment]⟩

/-- C5: the claim says that when a second deployment replaces a project's
previous container, the first deployment's host port is released back to the
allocator.  False: the stale-container cleanup inside `deployContainer`
stops and removes the old container but never calls `releasePort`.
Concretely: the first deploy for project "app" gets port 4000; the second
deploy stops and removes container "c1" yet leaves 4000 held, and the next
allocation returns 4002, not 4000 — the port never becomes allocatable
again. -/
theorem staleCleanup_does_not_release_port :
    (deployContainer "app" [] ⟨[], "c1", none, true, [true], 0⟩ initialAllocState).map
        (fun r => (r.1.port, r.2.1)) =
      some (4000, (⟨4001, insert 4000 ∅⟩ : AllocState)) ∧
    (deployContainer "app" [] ⟨["c1"], "c2", none, true, [true], 1⟩
        (⟨4001, insert 4000 ∅⟩ : AllocState)).map
        (fun r => (r.1.port, r.2.1, r.2.2.1.contains (DockerAction.stopAndRemove "c1"))) =
      some (4001, (⟨4002, insert 4001 (insert 4000 ∅)⟩ : AllocState), true) ∧
    4000 ∈ (insert 4001 (insert 4000 ∅) : Finset Nat) ∧
    (allocatePort 1100 (⟨4002, insert 4001 (insert 4000 ∅)⟩ : AllocState)).map
        (fun r => r.1) = some 4002 := by
  refine ⟨by decide, by decide, by decide, by decide⟩

/-- C8: buildpack detection evaluates the detectors in declaration order —
nodejs, python, go, ruby, rust, java, php, elixir, static — returning the
first whose condition matches, `none` when no detector matches; the file
list with both `package.json` and `index.html` selects nodejs, not
static. -/
theorem detectBuildpack_priority_order :
    buildpacks.map (fun bp => bp.name) =
      ["nodejs", "python", "go", "ruby", "rust", "java", "php", "elixir", "static"] ∧
    (∀ files : List String, (detectBuildpack files).map (fun bp => bp.name) =
      if files.contains "package.json" then some "nodejs"
      else if files.contains "requirements.txt" || files.contains "pyproject.toml" then some "python"
      else if files.contains "go.mod" then some "go"
      else if files.contains "Gemfile" then some "ruby"
      else if files.contains "Cargo.toml" then some "rust"
      else if files.contains "pom.xml" || files.contains "build.gradle" ||
              files.contains "build.gradle.kts" then some "java"
      else if files.contains "composer.json" || files.contains "index.php" then some "php"
      else if files.contains "mix.exs" then some "elixir"
      else if files.contains "index.html" then some "static"
      else none) ∧
    (detectBuildpack ["package.json", "index.html"]).map (fun bp => bp.name) = some "nodejs" ∧
    (detectBuildpack ["README.md", "src"]).map (fun bp => bp.name) = none := by
  refine ⟨rfl, ?_, by decide, by decide⟩
  intro files
  simp only [detectBuildpack, buildpacks, find?_ite, List.find?_nil, apply_ite
    (Option.map (fun bp : Buildpack => bp.name)), Option.map_some', Option.map_none']

/-- C10: the `Env` array always ends with `PORT=<allocated port>`, appended
after the user-supplied variables, so under the engine's last-entry-wins
resolution the allocated port overrides any user-supplied `PORT` value. -/
theorem envArray_port_appended_and_wins (envVars : List (String × String)) (port : Nat) :
    ("PORT=" ++ toString port) ∈ mkEnvArray envVars port ∧
    (mkEnvArray envVars port).getLast? = some ("PORT=" ++ toString port) ∧
    lastEnvEntry "PORT" (mkEnvArray envVars port) = some ("PORT=" ++ toString port) := by
  refine ⟨by simp [mkEnvArray], ?_, ?_⟩
  · rw [mkEnvArray, List.getLast?_concat]
  · rw [lastEnvEntry, mkEnvArray, List.reverse_append]
    simp only [List.reverse_singleton, List.singleton_append]
    rw [List.find?_cons_of_pos _ (entryHasKey_port (toString port))]

lemma waitForHealth_all_false (cid : String) :
    ∀ n, waitForHealth cid (List.replicate n false) =
      ["Container " ++ cid ++ " health check timed out, but continuing..."] := by
  intro n
  induction n with
  | zero => rfl
  | succ n ih => rw [List.replicate_succ]; simpa [waitForHealth] using ih

/-- C2 (amended): `triggerBuild` creates the deployment record with initial
status `building` (not `pending`), and a deployment whose clone fails passes
through the statuses `building` then `failed` (the failed update is applied
twice, once by the pipeline's catch and once by the trigger's catch), with no
image-build or container-run step attempted and the port allocator left
untouched. -/
theorem cloneFailure_building_then_failed (proj : Project) (id : String)
    (sha : Option String) (w : BuildWorld) (alloc : AllocState) (msg : String)
    (hmk : w.mkdirOk = true) (hclone : w.cloneErr = some msg) :
    statusHistory (triggerBuild proj id sha w alloc) =
      [Status.building, Status.failed, Status.failed] ∧
    (triggerBuild proj id sha w alloc).2.1.all (fun e => !(isBuildOrRunStep e)) = true ∧
    (triggerBuild proj id sha w alloc).2.2 = alloc := by
  cases hrm : w.rmOk <;>
    simp [triggerBuild, buildAsync, buildAsyncTry, statusHistory, statusWrites,
          createDeployment, isBuildOrRunStep, hmk, hclone, hrm]

/-- Witness for `cloneFailure_building_then_failed`: a concrete project whose
clone fails with a git error message. -/
theorem cloneFailure_building_then_failed_witness :
    statusHistory (triggerBuild ⟨"p1", "app", "https://example.invalid/r.git", "main", [], none⟩
        "dep00001" none
        ⟨true, some "fatal: repository not found", [], none, ⟨[], "c1", none, true, [], 0⟩, true⟩
        initialAllocState) = [Status.building, Status.failed, Status.failed] :=
  (cloneFailure_building_then_failed
    ⟨"p1", "app", "https://example.invalid/r.git", "main", [], none⟩ "dep00001" none
    ⟨true, some "fatal: repository not found", [], none, ⟨[], "c1", none, true, [], 0⟩, true⟩
    initialAllocState "fatal: repository not found" rfl rfl).1

/-- C9 (amended): a deployment whose clone contains no Dockerfile and matches
no buildpack detector ends in status `failed`, appends the log line
"❌ Build failed: No suitable buildpack found and no Dockerfile present"
(this, not the wording quoted in the claim, is the message in the code), and
attempts no image-build or container-run step. -/
theorem noBuildpack_fails_with_message (proj : Project) (id : String) (sha : Option String)
    (w : BuildWorld) (alloc : AllocState)
    (hmk : w.mkdirOk = true) (hclone : w.cloneErr = none)
    (hdf : w.files.contains "Dockerfile" = false)
    (hdet : detectBuildpack w.files = none) :
    (applyEvents (triggerBuild proj id sha w alloc).1
        (triggerBuild proj id sha w alloc).2.1).status = Status.failed ∧
    Event.log "\n❌ Build failed: No suitable buildpack found and no Dockerfile present"
        ∈ (triggerBuild proj id sha w alloc).2.1 ∧
    (triggerBuild proj id sha w alloc).2.1.all (fun e => !(isBuildOrRunStep e)) = true ∧
    (triggerBuild proj id sha w alloc).2.2 = alloc := by
  have hdf' : "Dockerfile" ∉ w.files := by simpa using hdf
  cases hrm : w.rmOk <;>
    simp [triggerBuild, buildAsync, buildAsyncTry, applyEvents, applyEvent,
          createDeployment, isBuildOrRunStep, hmk, hclone, hdf', hdet, hrm]

/-- Witness for `noBuildpack_fails_with_message`: a repository holding only
`README.md` and `src`. -/
theorem noBuildpack_fails_with_message_witness :
    Event.log "\n❌ Build failed: No suitable buildpack found and no Dockerfile present"
      ∈ (triggerBuild ⟨"p1", "app", "https://example.invalid/r.git", "main", [], none⟩
          "dep00001" none
          ⟨true, none, ["README.md", "src"], none, ⟨[], "c1", none, true, [], 0⟩, true⟩
          initialAllocState).2.1 :=
  (noBuildpack_fails_with_message
    ⟨"p1", "app", "https://example.invalid/r.git", "main", [], none⟩ "dep00001" none
    ⟨true, none, ["README.md", "src"], none, ⟨[], "c1", none, true, [], 0⟩, true⟩
    initialAllocState rfl rfl (by decide) rfl).2.1

/-- C9 counterexample: on a concrete no-match repository the pipeline does
reach `failed`, but no appended log message contains the wording the claim
quotes ("no buildpack matched and no custom build file present"). -/
theorem noBuildpack_claimed_wording_absent :
    (applyEvents
        (triggerBuild ⟨"p1", "app", "https://example.invalid/r.git", "main", [], none⟩
          "dep00001" none
          ⟨true, none, ["README.md", "src"], none, ⟨[], "c1", none, true, [], 0⟩, true⟩
          initialAllocState).1
        (triggerBuild ⟨"p1", "app", "https://example.invalid/r.git", "main", [], none⟩
          "dep00001" none
          ⟨true, none, ["README.md", "src"], none, ⟨[], "c1", none, true, [], 0⟩, true⟩
          initialAllocState).2.1).status = Status.failed ∧
    ((triggerBuild ⟨"p1", "app", "https://example.invalid/r.git", "main", [], none⟩
        "dep00001" none
        ⟨true, none, ["README.md", "src"], none, ⟨[], "c1", none, true, [], 0⟩, true⟩
        initialAllocState).2.1.all fun e =>
          match e with
          | Event.log m => !(strContains m "no buildpack matched and no custom build file present")
          | _ => true) = true := by
  refine ⟨by decide, by decide⟩

/-- C6: the claim says a failing working-directory removal after `running`
has been persisted leaves the verdict `running`.  False: the success-path
`fs.rm` sits inside the `try`, so its exception reaches the catch block,
which rewrites the already-persisted `running` row to `failed`. -/
theorem cleanupFailure_overrides_running (proj : Project) (id : String) (sha : Option String)
    (w : BuildWorld) (alloc : AllocState) (p : Nat) (a' : AllocState)
    (hmk : w.mkdirOk = true) (hclone : w.cloneErr = none)
    (hdf : w.files.contains "Dockerfile" = true) (hbuild : w.buildErr = none)
    (hstart : w.dockerW.createStartOk = true)
    (halloc : allocatePort 1100 alloc = some (p, a'))
    (hrm : w.rmOk = false) :
    Event.setRunning w.dockerW.newContainerId p ∈ (triggerBuild proj id sha w alloc).2.1 ∧
    Event.log "\n❌ Build failed: rm failed" ∈ (triggerBuild proj id sha w alloc).2.1 ∧
    (applyEvents (triggerBuild proj id sha w alloc).1
        (triggerBuild proj id sha w alloc).2.1).status = Status.failed := by
  have hdf' : "Dockerfile" ∈ w.files := by simpa using hdf
  simp [triggerBuild, buildAsync, buildAsyncTry, deployContainer, applyEvents, applyEvent,
        createDeployment, hmk, hclone, hdf', hbuild, hstart, halloc, hrm]

/-- Witness for `cleanupFailure_overrides_running`: a fully successful run
(custom Dockerfile, build and start succeed) whose scratch-directory removal
fails. -/
theorem cleanupFailure_overrides_running_witness :
    (applyEvents
        (triggerBuild ⟨"p1", "app", "https://example.invalid/r.git", "main", [], none⟩
          "dep00001" none
          ⟨true, none, ["Dockerfile"], none, ⟨[], "c1", none, true, [true], 0⟩, false⟩
          initialAllocState).1
        (triggerBuild ⟨"p1", "app", "https://example.invalid/r.git", "main", [], none⟩
          "dep00001" none
          ⟨true, none, ["Dockerfile"], none, ⟨[], "c1", none, true, [true], 0⟩, false⟩
          initialAllocState).2.1).status = Status.failed :=
  (cleanupFailure_overrides_running
    ⟨"p1", "app", "https://example.invalid/r.git", "main", [], none⟩ "dep00001" none
    ⟨true, none, ["Dockerfile"], none, ⟨[], "c1", none, true, [true], 0⟩, false⟩
    initialAllocState 4000 ⟨4001, insert 4000 ∅⟩ rfl rfl (by decide) rfl rfl
    (by decide) rfl).2.2

/-- C7: an exhausted health-probe window (every poll failing until the ≈30s
timeout) only produces the timeout console message; `deployContainer` still
returns the container handle, and the pipeline still persists status
`running`, for every probe outcome sequence. -/
theorem healthTimeout_not_fatal (proj : Project) (id : String) (sha : Option String)
    (w : BuildWorld) (alloc : AllocState) (p : Nat) (a' : AllocState) (probes : List Bool)
    (hmk : w.mkdirOk = true) (hclone : w.cloneErr = none)
    (hdf : w.files.contains "Dockerfile" = true) (hbuild : w.buildErr = none)
    (hstart : w.dockerW.createStartOk = true)
    (halloc : allocatePort 1100 alloc = some (p, a'))
    (hrm : w.rmOk = true) :
    waitForHealth w.dockerW.newContainerId (List.replicate 30 false) =
      ["Container " ++ w.dockerW.newContainerId ++
        " health check timed out, but continuing..."] ∧
    (deployContainer proj.name proj.env_vars
        { w.dockerW with probes := probes } alloc).map (fun r => r.1) =
      some ⟨w.dockerW.newContainerId, p⟩ ∧
    (applyEvents
        (triggerBuild proj id sha { w with dockerW := { w.dockerW with probes := probes } } alloc).1
        (triggerBuild proj id sha
          { w with dockerW := { w.dockerW with probes := probes } } alloc).2.1).status =
      Status.running := by
  have hdf' : "Dockerfile" ∈ w.files := by simpa using hdf
  refine ⟨waitForHealth_all_false _ 30, ?_, ?_⟩ <;>
    simp [triggerBuild, buildAsync, buildAsyncTry, deployContainer, applyEvents, applyEvent,
          createDeployment, hmk, hclone, hdf', hbuild, hstart, halloc, hrm]

/-- Witness for `healthTimeout_not_fatal`: a concrete successful run whose
thirty health polls all fail. -/
theorem healthTimeout_not_fatal_witness :
    (applyEvents
        (triggerBuild ⟨"p1", "app", "https://example.invalid/r.git", "main", [], none⟩
          "dep00001" none
          ⟨true, none, ["Dockerfile"], none,
            ⟨[], "c1", none, true, List.replicate 30 false, 0⟩, true⟩
          initialAllocState).1
        (triggerBuild ⟨"p1", "app", "https://example.invalid/r.git", "main", [], none⟩
          "dep00001" none
          ⟨true, none, ["Dockerfile"], none,
            ⟨[], "c1", none, true, List.replicate 30 false, 0⟩, true⟩
          initialAllocState).2.1).status = Status.running :=
  (healthTimeout_not_fatal
    ⟨"p1", "app", "https://example.invalid/r.git", "main", [], none⟩ "dep00001" none
    ⟨true, none, ["Dockerfile"], none, ⟨[], "c1", none, true, List.replicate 30 false, 0⟩, true⟩
    initialAllocState 4000 ⟨4001, insert 4000 ∅⟩ (List.replicate 30 false) rfl rfl
    (by decide) rfl rfl (by decide) rfl).2.2

end DeployHub
